import Mathlib

/-!
Verification of the ddp repository's core against its specification.

The development shallowly embeds the two source files:
* `src/ddpw/job.py` — job modes, job configuration, checkpoint save/restore
  and the job-lifecycle dispatch (`Job.__call__`);
* `src/ddpwrapper/__parallelit.py` — the per-worker distributed bootstrap
  (`AutoExecutor.dist_init`), modelled both as a trace of the operations it
  performs (in source order) and as the state it produces.

Serialized model/optimiser states (`state_dict` blobs) are modelled as
natural numbers; datasets, loss functions and log directories as handles.
The filesystem used by `torch.save`/`torch.load` is an association list from
path strings to checkpoint records, with write = shadowing insertion
(so an existing file is silently overwritten, as `torch.save` does).
-/

/-- Path separator used by `os.path.join` on posix systems. -/
def pathSep : String := "/"

/-- Does the string start with the path separator? -/
def startsWithSep (s : String) : Bool :=
  match s.data with
  | [] => false
  | c :: _ => c == '/'

/-- Does the string end with the path separator? -/
def endsWithSep (s : String) : Bool :=
  match s.data.getLast? with
  | none => false
  | some c => c == '/'

/-- Shallow embedding of the two-argument `os.path.join` (posix semantics):
an absolute second component replaces the first; otherwise the components are
joined, inserting a separator unless the first is empty or already ends in
one. -/
def osPathJoin (a b : String) : String :=
  if startsWithSep b then b
  else if a == "" || endsWithSep a then a ++ b
  else a ++ pathSep ++ b

/-- `JobMode` enumeration from `src/ddpw/job.py` lines 15-26. -/
inductive JobMode where
  | TRAIN
  | RESUME
  | EVALUATE
deriving DecidableEq, Repr

/-- `JobConfig` dataclass from `src/ddpw/job.py` lines 29-66.  The field
`checkpoint_name_pfx` embeds the source field `checkpoint_name_prefix`; the
`upon_finish` optional callback is modelled as an optional handle (its
identity is all the core ever touches). -/
structure JobConfig where
  job_type : JobMode
  start_at : Int
  epochs : Nat
  checkpoint_name_pfx : String
  checkpoint_path : String
  console_logs_path : String
  training_logs_path : String
  save_every : Nat
  upon_finish : Option Nat
deriving DecidableEq, Repr

/-- A model: `sd` is its serialized `state_dict` blob, `base_params` the
identity of its underlying parameter set, `device` the device it was moved
to (`model.to(gpu)`), and `wrapped` whether it has been wrapped by
`DistributedDataParallel`. -/
structure Model where
  sd : Nat
  base_params : Nat
  device : Option Nat
  wrapped : Bool
deriving DecidableEq, Repr

/-- `model.state_dict()`: export the serialized state. -/
def Model.state_dict (m : Model) : Nat := m.sd

/-- `model.load_state_dict(s)`: import a serialized state in place. -/
def Model.load_state_dict (m : Model) (s : Nat) : Model := { m with sd := s }

/-- `model.to(gpu)`: bind the model to a device. -/
def Model.to (m : Model) (gpu : Nat) : Model := { m with device := some gpu }

/-- `model.parameters()`: the parameter set handed out by the (possibly
wrapped) model object.  Wrapping may replace parameter objects, so the
reference carries whether it was taken from the wrapped object. -/
def Model.parameters (m : Model) : Nat × Bool := (m.base_params, m.wrapped)

/-- `torch.nn.parallel.DistributedDataParallel(model, [pid])`: wrap the
model for gradient-synchronised distributed execution. -/
def DistributedDataParallel (m : Model) (_pid : Nat) : Model :=
  { m with wrapped := true }

/-- An optimiser: `sd` is its serialized `state_dict` blob, `params` the
parameter reference it currently manages (rebound in `dist_init` by
`optimiser.params = model.parameters()`). -/
structure Optimiser where
  sd : Nat
  params : Nat × Bool
deriving DecidableEq, Repr

/-- `optimiser.state_dict()`: export the serialized optimiser state. -/
def Optimiser.state_dict (o : Optimiser) : Nat := o.sd

/-- `optimiser.load_state_dict(s)`: import a serialized optimiser state. -/
def Optimiser.load_state_dict (o : Optimiser) (s : Nat) : Optimiser :=
  { o with sd := s }

/-- The fields of `ArtefactsConfig` (external to the core, referenced by
`src/ddpw/job.py`) that the lifecycle reads or writes: the model, the
optimiser, the optional optimiser-builder `optimiser_loader`, and the
evaluation dataset `test_set` (a handle). -/
structure ArtefactsConfig where
  model : Model
  optimiser : Optimiser
  optimiser_loader : Option (Model → Optimiser)
  test_set : Nat

/-- Checkpoint record written by `Job.save_state` (`src/ddpw/job.py` lines
186-190): the epoch stopped at and the two exported state blobs. -/
structure Checkpoint where
  stopped_at : Int
  model : Nat
  optimiser : Nat
deriving DecidableEq, Repr

/-- The filesystem seen by `torch.save`/`torch.load`: an association list
from file paths to checkpoint records. -/
def FS : Type := List (String × Checkpoint)

/-- `torch.save(c, p)`: write record `c` at path `p`, silently overwriting
any existing file (the new entry shadows older ones). -/
def fsWrite (fs : FS) (p : String) (c : Checkpoint) : FS := (p, c) :: fs

/-- `os.path.isfile` + `torch.load`: look up the record at path `p`, the
most recently written entry winning. -/
def fsRead (fs : FS) (p : String) : Option Checkpoint :=
  match fs with
  | [] => none
  | (q, c) :: rest => if q == p then some c else fsRead rest p

/-- The job object of `src/ddpw/job.py`: its configurations plus whether
the user subclass actually supplied the abstract `train` and `evaluate`
procedures (the base-class bodies raise `NotImplementedError`). -/
structure Job where
  j_config : JobConfig
  a_config : ArtefactsConfig
  has_train : Bool
  has_evaluate : Bool

/-- Errors the lifecycle can raise.  `MissingCheckpointError` embeds the
failed `assert os.path.isfile(file_path)` of `restore_state` (line 204);
`UnimplementedProcedureError` embeds the `NotImplementedError` raised by an
unoverridden `train`/`evaluate` (lines 152 and 172). -/
inductive JobErr where
  | MissingCheckpointError
  | UnimplementedProcedureError
deriving DecidableEq, Repr

/-- Observable events of one `Job.__call__` run. -/
inductive CallEv where
  | invokeLoader
  | restoreEv (epoch : Int)
  | trainEv (global_rank local_rank : Int)
  | evalEv (global_rank local_rank : Int) (dataset : Nat)
deriving DecidableEq, Repr

/-- Is this event a checkpoint-restoration (file I/O) event? -/
def isRestoreEv : CallEv → Bool
  | CallEv.restoreEv _ => true
  | _ => false

/-- The checkpoint path built by `Job.save_state` (`src/ddpw/job.py` lines
191-192): `os.path.join(checkpoint_path, f'{checkpoint_name_prefix}_{epoch}.pt')`. -/
def save_path (j : JobConfig) (epoch : Int) : String :=
  osPathJoin j.checkpoint_path (j.checkpoint_name_pfx ++ "_" ++ toString epoch ++ ".pt")

/-- The checkpoint path built by `Job.restore_state` (`src/ddpw/job.py`
lines 201-202): the file name `f'{checkpoint_name_prefix}_{resume_at}.pt'`
joined to `checkpoint_path`. -/
def restore_path (j : JobConfig) (resume_at : Int) : String :=
  let filename := j.checkpoint_name_pfx ++ "_" ++ toString resume_at ++ ".pt"
  osPathJoin j.checkpoint_path filename

/-- `Job.save_state` (`src/ddpw/job.py` lines 174-192): serialize
`{stopped_at, model, optimiser}` and write it at the checkpoint path. -/
def Job.save_state (s : Job) (fs : FS) (epoch : Int) : FS :=
  let checkpoint : Checkpoint :=
    { stopped_at := epoch
      model := Model.state_dict s.a_config.model
      optimiser := Optimiser.state_dict s.a_config.optimiser }
  fsWrite fs (save_path s.j_config epoch) checkpoint

/-- `Job.restore_state` (`src/ddpw/job.py` lines 194-210): read the record
at the derived path (failing if the file does not exist), overwrite
`j_config.start_at` with the record's `stopped_at`, and load the model and
optimiser states back into the live objects. -/
def Job.restore_state (s : Job) (fs : FS) (resume_at : Int) : Except JobErr Job :=
  match fsRead fs (restore_path s.j_config resume_at) with
  | none => Except.error JobErr.MissingCheckpointError
  | some checkpoint =>
    Except.ok { s with
      j_config := { s.j_config with start_at := checkpoint.stopped_at }
      a_config := { s.a_config with
        model := Model.load_state_dict s.a_config.model checkpoint.model
        optimiser := Optimiser.load_state_dict s.a_config.optimiser checkpoint.optimiser } }

/-- `Job.train` (`src/ddpw/job.py` lines 136-152): invoke the user training
procedure, or raise if the subclass never supplied one. -/
def Job.train (s : Job) (global_rank local_rank : Int) : Except JobErr (List CallEv) :=
  if s.has_train then Except.ok [CallEv.trainEv global_rank local_rank]
  else Except.error JobErr.UnimplementedProcedureError

/-- `Job.evaluate` (`src/ddpw/job.py` lines 154-172): invoke the user
evaluation procedure, or raise if the subclass never supplied one. -/
def Job.evaluate (s : Job) (global_rank local_rank : Int) (dataset : Nat) :
    Except JobErr (List CallEv) :=
  if s.has_evaluate then Except.ok [CallEv.evalEv global_rank local_rank dataset]
  else Except.error JobErr.UnimplementedProcedureError

/-- First step of `Job.__call__` (`src/ddpw/job.py` lines 222-226): if an
`optimiser_loader` was supplied, invoke it on the current model and replace
the configured optimiser.  Returns the updated job and the events
performed. -/
def Job.loaderStage (s : Job) : Job × List CallEv :=
  match s.a_config.optimiser_loader with
  | some f =>
    ({ s with a_config := { s.a_config with optimiser := f s.a_config.model } },
     [CallEv.invokeLoader])
  | none => (s, [])

/-- Second step of `Job.__call__` (`src/ddpw/job.py` lines 228-232): under
`RESUME` or `EVALUATE` with `start_at >= 0`, restore the checkpoint at
epoch `start_at`; otherwise do nothing. -/
def Job.restoreStage (s1 : Job) (fs : FS) : Except JobErr (Job × List CallEv) :=
  if s1.j_config.job_type ∈ [JobMode.RESUME, JobMode.EVALUATE] then
    if 0 ≤ s1.j_config.start_at then
      match Job.restore_state s1 fs s1.j_config.start_at with
      | Except.error e => Except.error e
      | Except.ok s2 => Except.ok (s2, [CallEv.restoreEv s1.j_config.start_at])
    else Except.ok (s1, [])
  else Except.ok (s1, [])

/-- Third step of `Job.__call__` (`src/ddpw/job.py` lines 234-238):
dispatch to the user `train` procedure under `TRAIN`/`RESUME`, to the user
`evaluate` procedure (over `test_set`) otherwise. -/
def Job.dispatchStage (s2 : Job) (global_rank local_rank : Int) :
    Except JobErr (List CallEv) :=
  if s2.j_config.job_type ∈ [JobMode.TRAIN, JobMode.RESUME] then
    Job.train s2 global_rank local_rank
  else Job.evaluate s2 global_rank local_rank s2.a_config.test_set

/-- `Job.__call__` (`src/ddpw/job.py` lines 212-238): the three steps in
source order.  Returns the final job state and the trace of observable
events, or the first error raised. -/
def Job.call (s : Job) (fs : FS) (global_rank local_rank : Int) :
    Except JobErr (Job × List CallEv) :=
  let st1 := Job.loaderStage s
  match Job.restoreStage st1.1 fs with
  | Except.error e => Except.error e
  | Except.ok st2 =>
    match Job.dispatchStage st2.1 global_rank local_rank with
    | Except.error e => Except.error e
    | Except.ok evs3 => Except.ok (st2.1, st1.2 ++ st2.2 ++ evs3)

/-- The two call sites build the checkpoint path identically. -/
theorem save_path_eq_restore_path (j : JobConfig) (e : Int) :
    save_path j e = restore_path j e := rfl

/-- Reading back the path just written returns the record just written. -/
theorem fsRead_fsWrite (fs : FS) (p : String) (c : Checkpoint) :
    fsRead (fsWrite fs p c) p = some c := by
  simp [fsRead, fsWrite]

/-- C1: saving at epoch `E` and then restoring at `E` reads back a record
whose `stopped_at` is `E` and whose model/optimiser blobs are exactly the
states exported at save time, and restoration loads those states back into
the model and optimiser while setting `start_at` to `E`. -/
theorem checkpoint_roundtrip (s : Job) (fs : FS) (E : Int) :
    fsRead (Job.save_state s fs E) (restore_path s.j_config E) =
      some { stopped_at := E
             model := Model.state_dict s.a_config.model
             optimiser := Optimiser.state_dict s.a_config.optimiser } ∧
    ∃ s2, Job.restore_state s (Job.save_state s fs E) E = Except.ok s2 ∧
      s2.j_config.start_at = E ∧
      Model.state_dict s2.a_config.model = Model.state_dict s.a_config.model ∧
      Optimiser.state_dict s2.a_config.optimiser = Optimiser.state_dict s.a_config.optimiser := by
  have hpath : restore_path s.j_config E = save_path s.j_config E :=
    (save_path_eq_restore_path s.j_config E).symm
  have hread : fsRead (Job.save_state s fs E) (restore_path s.j_config E) =
      some { stopped_at := E
             model := Model.state_dict s.a_config.model
             optimiser := Optimiser.state_dict s.a_config.optimiser } := by
    rw [hpath]
    exact fsRead_fsWrite fs (save_path s.j_config E) _
  refine ⟨hread, ?_⟩
  unfold Job.restore_state
  rw [hread]
  exact ⟨_, rfl, rfl, rfl, rfl⟩

/-- C2: under `RESUME` with `start_at >= 0` and no checkpoint file at the
derived path, the lifecycle fails with `MissingCheckpointError` and the user
train procedure is never invoked (the call returns the error, not a trace
containing a train event). -/
theorem resume_missing_checkpoint_fails (s : Job) (fs : FS) (g l : Int)
    (hm : s.j_config.job_type = JobMode.RESUME)
    (hs : 0 ≤ s.j_config.start_at)
    (hf : fsRead fs (restore_path s.j_config s.j_config.start_at) = none) :
    Job.call s fs g l = Except.error JobErr.MissingCheckpointError := by
  cases hL : s.a_config.optimiser_loader with
  | none =>
    simp [Job.call, Job.loaderStage, Job.restoreStage, hL, hm, hs, Job.restore_state, hf]
  | some f =>
    simp [Job.call, Job.loaderStage, Job.restoreStage, hL, hm, hs, Job.restore_state, hf]

/-- Sample job configuration for witnesses (the source defaults, with
`job_type` RESUME). -/
def jc0 : JobConfig :=
  { job_type := JobMode.RESUME
    start_at := 0
    epochs := 25
    checkpoint_name_pfx := "ckpt"
    checkpoint_path := "./checkpoint"
    console_logs_path := "./logs/console_logs"
    training_logs_path := "./logs/training_logs"
    save_every := 5
    upon_finish := none }

/-- Sample model for witnesses. -/
def model0 : Model := { sd := 11, base_params := 3, device := none, wrapped := false }

/-- Sample optimiser for witnesses. -/
def opt0 : Optimiser := { sd := 22, params := (3, false) }

/-- Sample artefacts (no optimiser-builder) for witnesses. -/
def ac0 : ArtefactsConfig :=
  { model := model0, optimiser := opt0, optimiser_loader := none, test_set := 7 }

/-- Sample job (RESUME, user procedures supplied) for witnesses. -/
def job0 : Job := { j_config := jc0, a_config := ac0, has_train := true, has_evaluate := true }

/-- The empty filesystem. -/
def emptyFS : FS := []

theorem resume_missing_checkpoint_fails_witness :
    job0.j_config.job_type = JobMode.RESUME ∧
    0 ≤ job0.j_config.start_at ∧
    fsRead emptyFS (restore_path job0.j_config job0.j_config.start_at) = none ∧
    Job.call job0 emptyFS 0 0 = Except.error JobErr.MissingCheckpointError :=
  ⟨rfl, by decide,
   rfl,
   resume_missing_checkpoint_fails job0 emptyFS 0 0 rfl (by decide) rfl⟩

/-- C6: the checkpoint path written by `save_state` and the one read by
`restore_state` are the same string, depending only on the checkpoint
directory, the name prefix and the epoch; and (when the directory is
non-empty, does not end in a separator and the file name does not start
with one) that string is
`checkpoint_path ++ sep ++ name ++ underscore ++ epoch ++ extension`. -/
theorem checkpoint_path_deterministic (j1 j2 : JobConfig) (e : Int)
    (hp : j1.checkpoint_path = j2.checkpoint_path)
    (hx : j1.checkpoint_name_pfx = j2.checkpoint_name_pfx) :
    save_path j1 e = restore_path j2 e ∧
    ((j1.checkpoint_path == "") = false →
     endsWithSep j1.checkpoint_path = false →
     startsWithSep (j1.checkpoint_name_pfx ++ "_" ++ toString e ++ ".pt") = false →
     save_path j1 e =
       j1.checkpoint_path ++ pathSep ++ (j1.checkpoint_name_pfx ++ "_" ++ toString e ++ ".pt")) := by
  constructor
  · unfold save_path restore_path
    rw [hp, hx]
  · intro h1 h2 h3
    simp [save_path, osPathJoin, h1, h2, h3]

theorem checkpoint_path_deterministic_witness :
    save_path jc0 3 = restore_path jc0 3 ∧
    save_path jc0 3 =
      jc0.checkpoint_path ++ pathSep ++
        (jc0.checkpoint_name_pfx ++ "_" ++ toString (3 : Int) ++ ".pt") :=
  ⟨(checkpoint_path_deterministic jc0 jc0 3 rfl rfl).1,
   (checkpoint_path_deterministic jc0 jc0 3 rfl rfl).2 (by decide) (by decide) (by decide)⟩

/-- C3: under `RESUME` or `EVALUATE` with a negative `start_at`, the
lifecycle performs no restore (no checkpoint file I/O event appears in the
trace) and still dispatches to the user train (RESUME) or evaluate
(EVALUATE) procedure. -/
theorem negative_start_skips_restore (s : Job) (fs : FS) (g l : Int)
    (hm : s.j_config.job_type = JobMode.RESUME ∨ s.j_config.job_type = JobMode.EVALUATE)
    (hs : s.j_config.start_at < 0)
    (ht : s.j_config.job_type = JobMode.RESUME → s.has_train = true)
    (he : s.j_config.job_type = JobMode.EVALUATE → s.has_evaluate = true) :
    ∃ s2 evs, Job.call s fs g l = Except.ok (s2, evs) ∧
      (∀ e ∈ evs, isRestoreEv e = false) ∧
      ((s.j_config.job_type = JobMode.RESUME ∧ CallEv.trainEv g l ∈ evs) ∨
       (s.j_config.job_type = JobMode.EVALUATE ∧ ∃ ds, CallEv.evalEv g l ds ∈ evs)) := by
  have hns : ¬ (0 ≤ s.j_config.start_at) := by omega
  rcases hm with hm | hm
  · have htr := ht hm
    cases hL : s.a_config.optimiser_loader with
    | none =>
      refine ⟨s, [CallEv.trainEv g l], ?_, ?_, Or.inl ⟨hm, by simp⟩⟩
      · simp [Job.call, Job.loaderStage, Job.restoreStage, Job.dispatchStage, hL, hm, hns,
              Job.train, htr]
      · intro e hme
        simp at hme
        simp [hme, isRestoreEv]
    | some f =>
      refine ⟨{ s with a_config := { s.a_config with optimiser := f s.a_config.model } },
              [CallEv.invokeLoader, CallEv.trainEv g l], ?_, ?_, Or.inl ⟨hm, by simp⟩⟩
      · simp [Job.call, Job.loaderStage, Job.restoreStage, Job.dispatchStage, hL, hm, hns,
              Job.train, htr]
      · intro e hme
        simp at hme
        rcases hme with hme | hme <;> simp [hme, isRestoreEv]
  · have hev := he hm
    cases hL : s.a_config.optimiser_loader with
    | none =>
      refine ⟨s, [CallEv.evalEv g l s.a_config.test_set], ?_, ?_,
              Or.inr ⟨hm, s.a_config.test_set, by simp⟩⟩
      · simp [Job.call, Job.loaderStage, Job.restoreStage, Job.dispatchStage, hL, hm, hns,
              Job.evaluate, hev]
      · intro e hme
        simp at hme
        simp [hme, isRestoreEv]
    | some f =>
      refine ⟨{ s with a_config := { s.a_config with optimiser := f s.a_config.model } },
              [CallEv.invokeLoader, CallEv.evalEv g l s.a_config.test_set], ?_, ?_,
              Or.inr ⟨hm, s.a_config.test_set, by simp⟩⟩
      · simp [Job.call, Job.loaderStage, Job.restoreStage, Job.dispatchStage, hL, hm, hns,
              Job.evaluate, hev]
      · intro e hme
        simp at hme
        rcases hme with hme | hme <;> simp [hme, isRestoreEv]

/-- Sample job for the C3 witness: RESUME with the negative sentinel. -/
def jobNeg : Job :=
  { j_config := { jc0 with start_at := -1 }
    a_config := ac0
    has_train := true
    has_evaluate := true }

theorem negative_start_skips_restore_witness :
    jobNeg.j_config.job_type = JobMode.RESUME ∧
    jobNeg.j_config.start_at < 0 ∧
    (∃ s2 evs, Job.call jobNeg emptyFS 0 0 = Except.ok (s2, evs) ∧
      (∀ e ∈ evs, isRestoreEv e = false) ∧
      ((jobNeg.j_config.job_type = JobMode.RESUME ∧ CallEv.trainEv 0 0 ∈ evs) ∨
       (jobNeg.j_config.job_type = JobMode.EVALUATE ∧ ∃ ds, CallEv.evalEv 0 0 ds ∈ evs))) :=
  ⟨rfl, by decide,
   negative_start_skips_restore jobNeg emptyFS 0 0 (Or.inl rfl) (by decide)
     (fun _ => rfl) (fun h => by simp [jobNeg, jc0] at h)⟩

/-- Characterisation of a successful `restore_state`: some record was read
at the derived path, `start_at` was overwritten with its `stopped_at`, and
the model/optimiser states were loaded; nothing else changed. -/
theorem restore_state_ok (s s2 : Job) (fs : FS) (r : Int)
    (h : Job.restore_state s fs r = Except.ok s2) :
    ∃ c, fsRead fs (restore_path s.j_config r) = some c ∧
      s2 = { s with
        j_config := { s.j_config with start_at := c.stopped_at }
        a_config := { s.a_config with
          model := Model.load_state_dict s.a_config.model c.model
          optimiser := Optimiser.load_state_dict s.a_config.optimiser c.optimiser } } := by
  unfold Job.restore_state at h
  cases hc : fsRead fs (restore_path s.j_config r) with
  | none => rw [hc] at h; exact absurd h (by simp)
  | some c =>
    rw [hc] at h
    refine ⟨c, rfl, ?_⟩
    injection h with h2
    exact h2.symm

/-- The loader step never touches the job configuration or the flags
recording which user procedures were supplied. -/
theorem loaderStage_frame (s : Job) :
    (Job.loaderStage s).1.j_config = s.j_config ∧
    (Job.loaderStage s).1.has_train = s.has_train ∧
    (Job.loaderStage s).1.has_evaluate = s.has_evaluate := by
  cases hL : s.a_config.optimiser_loader <;> simp [Job.loaderStage, hL]

/-- Characterisation of a successful restore stage: either nothing was
restored and the state is returned unchanged, or a record was read at the
derived path and applied. -/
theorem restoreStage_ok (s1 s2 : Job) (fs : FS) (evs2 : List CallEv)
    (h : Job.restoreStage s1 fs = Except.ok (s2, evs2)) :
    (s2 = s1 ∧ evs2 = []) ∨
    (∃ c, fsRead fs (restore_path s1.j_config s1.j_config.start_at) = some c ∧
      s2 = { s1 with
        j_config := { s1.j_config with start_at := c.stopped_at }
        a_config := { s1.a_config with
          model := Model.load_state_dict s1.a_config.model c.model
          optimiser := Optimiser.load_state_dict s1.a_config.optimiser c.optimiser } } ∧
      evs2 = [CallEv.restoreEv s1.j_config.start_at]) := by
  unfold Job.restoreStage at h
  by_cases hmem : s1.j_config.job_type ∈ [JobMode.RESUME, JobMode.EVALUATE]
  · rw [if_pos hmem] at h
    by_cases hge : 0 ≤ s1.j_config.start_at
    · rw [if_pos hge] at h
      cases hr : Job.restore_state s1 fs s1.j_config.start_at with
      | error e => rw [hr] at h; exact absurd h (by simp)
      | ok sr =>
        rw [hr] at h
        obtain ⟨c, hc, hsr⟩ := restore_state_ok s1 sr fs s1.j_config.start_at hr
        simp only [Except.ok.injEq, Prod.mk.injEq] at h
        obtain ⟨h1, h2⟩ := h
        exact Or.inr ⟨c, hc, by rw [← h1, hsr], h2.symm⟩
    · rw [if_neg hge] at h
      simp only [Except.ok.injEq, Prod.mk.injEq] at h
      exact Or.inl ⟨h.1.symm, h.2.symm⟩
  · rw [if_neg hmem] at h
    simp only [Except.ok.injEq, Prod.mk.injEq] at h
    exact Or.inl ⟨h.1.symm, h.2.symm⟩

/-- Decomposition of a successful `Job.__call__` into its three stages. -/
theorem call_ok (s : Job) (fs : FS) (g l : Int) (s2 : Job) (evs : List CallEv)
    (h : Job.call s fs g l = Except.ok (s2, evs)) :
    ∃ evs2 evs3,
      Job.restoreStage (Job.loaderStage s).1 fs = Except.ok (s2, evs2) ∧
      Job.dispatchStage s2 g l = Except.ok evs3 ∧
      evs = (Job.loaderStage s).2 ++ evs2 ++ evs3 := by
  simp only [Job.call] at h
  cases hr : Job.restoreStage (Job.loaderStage s).1 fs with
  | error e => rw [hr] at h; exact absurd h (by simp)
  | ok st2 =>
    rw [hr] at h
    dsimp only at h
    cases hd : Job.dispatchStage st2.1 g l with
    | error e => rw [hd] at h; exact absurd h (by simp)
    | ok evs3 =>
      rw [hd] at h
      simp only [Except.ok.injEq, Prod.mk.injEq] at h
      obtain ⟨h1, h2⟩ := h
      subst h1
      exact ⟨st2.2, evs3, rfl, hd, h2.symm⟩

/-- C5: the lifecycle dispatch mutates no `JobConfig` field other than
`start_at`, and `start_at` changes only when a restore succeeded, in which
case it takes the `stopped_at` of the restored record. -/
theorem jobconfig_frame (s : Job) (fs : FS) (g l : Int) (s2 : Job) (evs : List CallEv)
    (h : Job.call s fs g l = Except.ok (s2, evs)) :
    s2.j_config.job_type = s.j_config.job_type ∧
    s2.j_config.epochs = s.j_config.epochs ∧
    s2.j_config.checkpoint_name_pfx = s.j_config.checkpoint_name_pfx ∧
    s2.j_config.checkpoint_path = s.j_config.checkpoint_path ∧
    s2.j_config.console_logs_path = s.j_config.console_logs_path ∧
    s2.j_config.training_logs_path = s.j_config.training_logs_path ∧
    s2.j_config.save_every = s.j_config.save_every ∧
    s2.j_config.upon_finish = s.j_config.upon_finish ∧
    (s2.j_config.start_at = s.j_config.start_at ∨
     ∃ c, fsRead fs (restore_path s.j_config s.j_config.start_at) = some c ∧
          s2.j_config.start_at = c.stopped_at) := by
  obtain ⟨evs2, evs3, hr, hd, hevs⟩ := call_ok s fs g l s2 evs h
  obtain ⟨hj, _, _⟩ := loaderStage_frame s
  rcases restoreStage_ok _ s2 fs evs2 hr with ⟨hs2, _⟩ | ⟨c, hc, hs2, _⟩
  · subst hs2
    rw [hj]
    exact ⟨rfl, rfl, rfl, rfl, rfl, rfl, rfl, rfl, Or.inl rfl⟩
  · subst hs2
    rw [hj] at hc
    exact ⟨by simp [hj], by simp [hj], by simp [hj], by simp [hj], by simp [hj], by simp [hj],
           by simp [hj], by simp [hj], Or.inr ⟨c, hc, by simp [hj]⟩⟩

/-- Sample job for witnesses: TRAIN mode, user procedures supplied. -/
def jobTrain : Job :=
  { j_config := { jc0 with job_type := JobMode.TRAIN }
    a_config := ac0
    has_train := true
    has_evaluate := true }

theorem jobconfig_frame_witness :
    Job.call jobTrain emptyFS 0 0 = Except.ok (jobTrain, [CallEv.trainEv 0 0]) ∧
    (jobTrain.j_config.job_type = jobTrain.j_config.job_type ∧
     jobTrain.j_config.epochs = jobTrain.j_config.epochs ∧
     jobTrain.j_config.checkpoint_name_pfx = jobTrain.j_config.checkpoint_name_pfx ∧
     jobTrain.j_config.checkpoint_path = jobTrain.j_config.checkpoint_path ∧
     jobTrain.j_config.console_logs_path = jobTrain.j_config.console_logs_path ∧
     jobTrain.j_config.training_logs_path = jobTrain.j_config.training_logs_path ∧
     jobTrain.j_config.save_every = jobTrain.j_config.save_every ∧
     jobTrain.j_config.upon_finish = jobTrain.j_config.upon_finish ∧
     (jobTrain.j_config.start_at = jobTrain.j_config.start_at ∨
      ∃ c, fsRead emptyFS (restore_path jobTrain.j_config jobTrain.j_config.start_at) = some c ∧
           jobTrain.j_config.start_at = c.stopped_at)) :=
  ⟨rfl, jobconfig_frame jobTrain emptyFS 0 0 jobTrain [CallEv.trainEv 0 0] rfl⟩

/-- C8: if the user never supplied the train (resp. evaluate) procedure,
running the lifecycle in a mode that dispatches to it fails with
`UnimplementedProcedureError` (it does not silently do nothing).  The
hypothesis `hok` only rules out an earlier `MissingCheckpointError`: when a
restore is due, a record exists. -/
theorem missing_procedure_errors (s : Job) (fs : FS) (g l : Int)
    (hok : (s.j_config.job_type = JobMode.RESUME ∨ s.j_config.job_type = JobMode.EVALUATE) →
           0 ≤ s.j_config.start_at →
           ∃ c, fsRead fs (restore_path s.j_config s.j_config.start_at) = some c) :
    ((s.j_config.job_type = JobMode.TRAIN ∨ s.j_config.job_type = JobMode.RESUME) →
       s.has_train = false →
       Job.call s fs g l = Except.error JobErr.UnimplementedProcedureError) ∧
    (s.j_config.job_type = JobMode.EVALUATE → s.has_evaluate = false →
       Job.call s fs g l = Except.error JobErr.UnimplementedProcedureError) := by
  constructor
  · intro hjt hft
    cases hL : s.a_config.optimiser_loader with
    | none =>
      rcases hjt with hjt | hjt
      · simp [Job.call, Job.loaderStage, Job.restoreStage, Job.dispatchStage, Job.train,
              hjt, hL, hft]
      · by_cases hge : 0 ≤ s.j_config.start_at
        · obtain ⟨c, hc⟩ := hok (Or.inl hjt) hge
          simp [Job.call, Job.loaderStage, Job.restoreStage, Job.dispatchStage, Job.train,
                Job.restore_state, hjt, hL, hft, hge, hc]
        · simp [Job.call, Job.loaderStage, Job.restoreStage, Job.dispatchStage, Job.train,
                hjt, hL, hft, hge]
    | some f =>
      rcases hjt with hjt | hjt
      · simp [Job.call, Job.loaderStage, Job.restoreStage, Job.dispatchStage, Job.train,
              hjt, hL, hft]
      · by_cases hge : 0 ≤ s.j_config.start_at
        · obtain ⟨c, hc⟩ := hok (Or.inl hjt) hge
          simp [Job.call, Job.loaderStage, Job.restoreStage, Job.dispatchStage, Job.train,
                Job.restore_state, hjt, hL, hft, hge, hc]
        · simp [Job.call, Job.loaderStage, Job.restoreStage, Job.dispatchStage, Job.train,
                hjt, hL, hft, hge]
  · intro hjt hfe
    cases hL : s.a_config.optimiser_loader with
    | none =>
      by_cases hge : 0 ≤ s.j_config.start_at
      · obtain ⟨c, hc⟩ := hok (Or.inr hjt) hge
        simp [Job.call, Job.loaderStage, Job.restoreStage, Job.dispatchStage, Job.evaluate,
              Job.restore_state, hjt, hL, hfe, hge, hc]
      · simp [Job.call, Job.loaderStage, Job.restoreStage, Job.dispatchStage, Job.evaluate,
              hjt, hL, hfe, hge]
    | some f =>
      by_cases hge : 0 ≤ s.j_config.start_at
      · obtain ⟨c, hc⟩ := hok (Or.inr hjt) hge
        simp [Job.call, Job.loaderStage, Job.restoreStage, Job.dispatchStage, Job.evaluate,
              Job.restore_state, hjt, hL, hfe, hge, hc]
      · simp [Job.call, Job.loaderStage, Job.restoreStage, Job.dispatchStage, Job.evaluate,
              hjt, hL, hfe, hge]

/-- Sample job for the C8 witness: TRAIN mode, no user train procedure. -/
def jobNoTrain : Job :=
  { j_config := { jc0 with job_type := JobMode.TRAIN }
    a_config := ac0
    has_train := false
    has_evaluate := false }

theorem missing_procedure_errors_witness :
    jobNoTrain.j_config.job_type = JobMode.TRAIN ∧
    jobNoTrain.has_train = false ∧
    Job.call jobNoTrain emptyFS 0 0 = Except.error JobErr.UnimplementedProcedureError :=
  ⟨rfl, rfl,
   (missing_procedure_errors jobNoTrain emptyFS 0 0
      (fun hm _ => by rcases hm with hm | hm <;> exact absurd hm (by decide))).1
     (Or.inl rfl) rfl⟩

/-- C10: when an `optimiser_loader` is supplied, the lifecycle invokes it
and replaces the configured optimiser before the restore is attempted: the
trace is loader first, restore second, and the final optimiser is the
freshly built one with the checkpoint's optimiser state loaded over it. -/
theorem loader_before_restore (s : Job) (fs : FS) (g l : Int) (f : Model → Optimiser)
    (c : Checkpoint)
    (hf : s.a_config.optimiser_loader = some f)
    (hm : s.j_config.job_type = JobMode.RESUME ∨ s.j_config.job_type = JobMode.EVALUATE)
    (hge : 0 ≤ s.j_config.start_at)
    (hc : fsRead fs (restore_path s.j_config s.j_config.start_at) = some c)
    (ht : s.has_train = true) (he : s.has_evaluate = true) :
    ∃ s2 last, Job.call s fs g l =
        Except.ok (s2, [CallEv.invokeLoader, CallEv.restoreEv s.j_config.start_at, last]) ∧
      s2.a_config.optimiser = Optimiser.load_state_dict (f s.a_config.model) c.optimiser := by
  rcases hm with hm | hm
  · refine ⟨{ s with
        j_config := { s.j_config with start_at := c.stopped_at }
        a_config := { s.a_config with
          model := Model.load_state_dict s.a_config.model c.model
          optimiser := Optimiser.load_state_dict (f s.a_config.model) c.optimiser } },
      CallEv.trainEv g l, ?_, rfl⟩
    simp [Job.call, Job.loaderStage, Job.restoreStage, Job.dispatchStage, Job.train,
          Job.restore_state, hf, hm, hge, hc, ht]
  · refine ⟨{ s with
        j_config := { s.j_config with start_at := c.stopped_at }
        a_config := { s.a_config with
          model := Model.load_state_dict s.a_config.model c.model
          optimiser := Optimiser.load_state_dict (f s.a_config.model) c.optimiser } },
      CallEv.evalEv g l s.a_config.test_set, ?_, rfl⟩
    simp [Job.call, Job.loaderStage, Job.restoreStage, Job.dispatchStage, Job.evaluate,
          Job.restore_state, hf, hm, hge, hc, he]

/-- Sample optimiser builder for witnesses. -/
def f0 : Model → Optimiser :=
  fun m => { sd := 100 + Model.state_dict m, params := Model.parameters m }

/-- Sample artefacts with an optimiser builder supplied. -/
def acL : ArtefactsConfig :=
  { model := model0, optimiser := opt0, optimiser_loader := some f0, test_set := 7 }

/-- Sample RESUME job with an optimiser builder supplied. -/
def jobL : Job := { j_config := jc0, a_config := acL, has_train := true, has_evaluate := true }

/-- Sample checkpoint record stored at epoch 0. -/
def ck0 : Checkpoint := { stopped_at := 0, model := 55, optimiser := 66 }

/-- Filesystem holding the epoch-0 checkpoint. -/
def fs0 : FS := [(restore_path jc0 0, ck0)]

theorem loader_before_restore_witness :
    jobL.a_config.optimiser_loader = some f0 ∧
    0 ≤ jobL.j_config.start_at ∧
    fsRead fs0 (restore_path jobL.j_config jobL.j_config.start_at) = some ck0 ∧
    (∃ s2 last, Job.call jobL fs0 0 0 =
        Except.ok (s2, [CallEv.invokeLoader, CallEv.restoreEv jobL.j_config.start_at, last]) ∧
      s2.a_config.optimiser = Optimiser.load_state_dict (f0 jobL.a_config.model) ck0.optimiser) :=
  ⟨rfl, by decide, by decide,
   loader_before_restore jobL fs0 0 0 f0 ck0 rfl (Or.inl rfl) (by decide) (by decide) rfl rfl⟩

/-- Observable operations of `AutoExecutor.dist_init`
(`src/ddpwrapper/__parallelit.py` lines 25-72), one constructor per source
call, in the order defined below by `AutoExecutor.dist_init`. -/
inductive Ev where
  | initProcessGroup (init_method : String) (world_size rank : Nat)
  | seedTorch (seed : Nat)
  | seedNumpy (seed : Nat)
  | seedCudaAll (seed : Nat)
  | barrier
  | setDevice (gpu : Nat)
  | modelTo (gpu : Nat)
  | ddpWrap (pid : Nat)
  | samplerCreate (num_replicas rank : Nat)
  | dataloaderCreate
  | rebindOptimParams
  | loggerSetup (is_rank_zero : Bool)
  | trainerCall
  | destroyProcessGroup
deriving DecidableEq, Repr

/-- Is this the process-group join (`dist.init_process_group`)? -/
def isJoinEv : Ev → Bool
  | Ev.initProcessGroup _ _ _ => true
  | _ => false

/-- Is this one of the three seeding calls (`torch.manual_seed`,
`np.random.seed`, `torch.cuda.manual_seed_all`)? -/
def isSeedEv : Ev → Bool
  | Ev.seedTorch _ => true
  | Ev.seedNumpy _ => true
  | Ev.seedCudaAll _ => true
  | _ => false

/-- Is this a barrier? -/
def isBarrierEv : Ev → Bool
  | Ev.barrier => true
  | _ => false

/-- Is this part of device binding and replication (device selection,
model move, DDP wrap, sampler/dataloader construction, optimiser
parameter rebinding)? -/
def isBindEv : Ev → Bool
  | Ev.setDevice _ => true
  | Ev.modelTo _ => true
  | Ev.ddpWrap _ => true
  | Ev.samplerCreate _ _ => true
  | Ev.dataloaderCreate => true
  | Ev.rebindOptimParams => true
  | _ => false

/-- Is this the DDP wrapping step? -/
def isWrapEv : Ev → Bool
  | Ev.ddpWrap _ => true
  | _ => false

/-- Is this the optimiser parameter rebinding (`optimiser.params =
model.parameters()`)? -/
def isRebindEv : Ev → Bool
  | Ev.rebindOptimParams => true
  | _ => false

/-- `AutoExecutor`'s class attributes
(`src/ddpwrapper/__parallelit.py` lines 14-17). -/
structure AutoExecutor where
  nprocs : Nat := 1
  init_method : String := "tcp://localhost:1640"
  seed : Nat := 1640

/-- The argument bundle read by `dist_init` (lines 41-51): the payloads the
embedding does not inspect (dataset, loss function, log directory, ...) are
handles. -/
structure WorkerArgs where
  model : Model
  dataset : Nat
  optimiser : Optimiser
  loss_fn : Nat
  optimiser_step : Option Nat
  epochs : Nat
  ckpt_every : Nat
  logdir : String
  local_rank : Option Nat

/-- `AutoExecutor.dist_init` (`src/ddpwrapper/__parallelit.py` lines
25-72): the trace of operations it performs, in source order, together
with the model and optimiser it produces.  The source order is: join the
process group, seed the three RNG sources, barrier, pick the device
(`local_rank` falling back to `pid`), move the model, wrap it with DDP,
build the rank-aware sampler and the dataloader, rebind the optimiser's
parameters to the wrapped model's, barrier, set up the rank-0-only logger,
invoke the trainer, barrier, destroy the process group. -/
def AutoExecutor.dist_init (a : AutoExecutor) (pid : Nat) (args : WorkerArgs) :
    List Ev × Model × Optimiser :=
  let gpu := args.local_rank.getD pid
  let m1 := Model.to args.model gpu
  let m2 := DistributedDataParallel m1 pid
  let optimiser := { args.optimiser with params := Model.parameters m2 }
  ([Ev.initProcessGroup a.init_method a.nprocs pid,
    Ev.seedTorch a.seed, Ev.seedNumpy a.seed, Ev.seedCudaAll a.seed,
    Ev.barrier,
    Ev.setDevice gpu,
    Ev.modelTo gpu,
    Ev.ddpWrap pid,
    Ev.samplerCreate a.nprocs pid,
    Ev.dataloaderCreate,
    Ev.rebindOptimParams,
    Ev.barrier,
    Ev.loggerSetup (pid == 0),
    Ev.trainerCall,
    Ev.barrier,
    Ev.destroyProcessGroup], m2, optimiser)

/-- An executor with the source's default attributes. -/
def exec0 : AutoExecutor := {}

/-- A sample worker argument bundle. -/
def wargs0 : WorkerArgs :=
  { model := model0, dataset := 5, optimiser := opt0, loss_fn := 1,
    optimiser_step := none, epochs := 3, ckpt_every := 1, logdir := "./logs",
    local_rank := none }

/-- C4 counterexample: in the worker pipeline the process-group join is the
very first operation and the seeding calls come after it, so the claimed
order (seeding before the join) is false on the code. -/
theorem seed_before_join_cex :
    List.findIdx isJoinEv (AutoExecutor.dist_init exec0 0 wargs0).1 = 0 ∧
    List.findIdx isSeedEv (AutoExecutor.dist_init exec0 0 wargs0).1 = 1 ∧
    ¬ List.findIdx isSeedEv (AutoExecutor.dist_init exec0 0 wargs0).1 <
        List.findIdx isJoinEv (AutoExecutor.dist_init exec0 0 wargs0).1 := by
  refine ⟨rfl, rfl, ?_⟩
  decide

/-- C4 amended: in every worker the pipeline order is process-group join,
then seeding of all pseudo-random sources, then a barrier, then device
binding and replication, then a barrier, then (after the rank-0 logger
setup) the trainer dispatch, then a barrier, then process-group
destruction; in particular seeding completes before any stochastic
operation (the binding segment, which contains the sampler and dataloader
construction, comes strictly after the seeds). -/
theorem worker_pipeline_order (a : AutoExecutor) (pid : Nat) (args : WorkerArgs) :
    ∃ bindSeg : List Ev,
      (AutoExecutor.dist_init a pid args).1 =
        [Ev.initProcessGroup a.init_method a.nprocs pid,
         Ev.seedTorch a.seed, Ev.seedNumpy a.seed, Ev.seedCudaAll a.seed,
         Ev.barrier] ++ bindSeg ++
        [Ev.barrier, Ev.loggerSetup (pid == 0), Ev.trainerCall, Ev.barrier,
         Ev.destroyProcessGroup] ∧
      (∀ e ∈ bindSeg, isBindEv e = true) ∧
      (∀ e ∈ bindSeg, isSeedEv e = false) ∧
      (∀ e ∈ bindSeg, isBarrierEv e = false) ∧
      (∀ e ∈ bindSeg, isJoinEv e = false) ∧
      Ev.ddpWrap pid ∈ bindSeg ∧
      Ev.samplerCreate a.nprocs pid ∈ bindSeg := by
  refine ⟨[Ev.setDevice (args.local_rank.getD pid), Ev.modelTo (args.local_rank.getD pid),
           Ev.ddpWrap pid, Ev.samplerCreate a.nprocs pid, Ev.dataloaderCreate,
           Ev.rebindOptimParams], rfl, ?_, ?_, ?_, ?_, by simp, by simp⟩ <;>
  · intro e he
    simp only [List.mem_cons, List.not_mem_nil, or_false] at he
    rcases he with he | he | he | he | he | he <;>
      simp [he, isBindEv, isSeedEv, isBarrierEv, isJoinEv]

/-- C9: in every worker the optimiser produced by `dist_init` manages the
wrapped model's parameter set, the model handed on is indeed wrapped, and
in the trace the DDP wrapping strictly precedes the parameter rebinding;
and in the lifecycle, when an optimiser-builder is supplied it is invoked
on the model held in the artefacts (the wrapped model installed there by
the wrapper) to produce the optimiser. -/
theorem optimiser_rebound_after_wrap :
    (∀ (a : AutoExecutor) (pid : Nat) (args : WorkerArgs),
      ((AutoExecutor.dist_init a pid args).2.2).params =
        Model.parameters (AutoExecutor.dist_init a pid args).2.1 ∧
      ((AutoExecutor.dist_init a pid args).2.1).wrapped = true ∧
      List.findIdx isWrapEv (AutoExecutor.dist_init a pid args).1 <
        List.findIdx isRebindEv (AutoExecutor.dist_init a pid args).1) ∧
    (∀ (s : Job) (f : Model → Optimiser),
      s.a_config.optimiser_loader = some f →
      s.a_config.model.wrapped = true →
      (Job.loaderStage s).1.a_config.optimiser = f s.a_config.model ∧
      (Job.loaderStage s).1.a_config.model.wrapped = true) := by
  constructor
  · intro a pid args
    refine ⟨rfl, rfl, ?_⟩
    simp only [AutoExecutor.dist_init, List.findIdx_cons, isWrapEv, isRebindEv,
               cond_false, cond_true]
    decide
  · intro s f hf hw
    constructor
    · simp [Job.loaderStage, hf]
    · simp [Job.loaderStage, hf, hw]

/-- Sample wrapped model, as the wrapper installs into the artefacts. -/
def modelW : Model := { sd := 11, base_params := 3, device := some 0, wrapped := true }

/-- Sample artefacts holding the wrapped model and an optimiser builder. -/
def acW : ArtefactsConfig :=
  { model := modelW, optimiser := opt0, optimiser_loader := some f0, test_set := 7 }

/-- Sample job over the wrapped model. -/
def jobW : Job := { j_config := jc0, a_config := acW, has_train := true, has_evaluate := true }

theorem optimiser_rebound_after_wrap_witness :
    jobW.a_config.optimiser_loader = some f0 ∧
    jobW.a_config.model.wrapped = true ∧
    (Job.loaderStage jobW).1.a_config.optimiser = f0 jobW.a_config.model ∧
    ((AutoExecutor.dist_init exec0 0 wargs0).2.2).params =
      Model.parameters (AutoExecutor.dist_init exec0 0 wargs0).2.1 :=
  ⟨rfl, rfl, (optimiser_rebound_after_wrap.2 jobW f0 rfl rfl).1,
   (optimiser_rebound_after_wrap.1 exec0 0 wargs0).1⟩

/-- States of the process-group bootstrap (spec §4.2's state machine):
`UNINITIALIZED → JOINED → TORN_DOWN`. -/
inductive PGState where
  | UNINITIALIZED
  | JOINED
  | TORN_DOWN
deriving DecidableEq, Repr

/-- A worker's view of the default process group: its lifecycle state
and how many barrier operations have completed on it. -/
structure PG where
  state : PGState
  barrier_count : Nat
deriving DecidableEq, Repr

/-- Error raised by collective operations on a default process group that
is not currently joined (the collective library's documented behaviour,
matching the spec's state machine in which `barrier` and destruction are
only available in the JOINED state). -/
inductive PGErr where
  | ProcessGroupNotInitialized
deriving DecidableEq, Repr

/-- `dist.barrier(...)`: succeeds (and is counted) only while the default
group is joined; on a group never initialised or already destroyed it
raises. -/
def dist_barrier (g : PG) : Except PGErr PG :=
  match g.state with
  | PGState.JOINED => Except.ok { g with barrier_count := g.barrier_count + 1 }
  | _ => Except.error PGErr.ProcessGroupNotInitialized

/-- `dist.destroy_process_group()`: releases the group (JOINED →
TORN_DOWN); raises if the group is not currently joined. -/
def destroy_process_group (g : PG) : Except PGErr PG :=
  match g.state with
  | PGState.JOINED => Except.ok { g with state := PGState.TORN_DOWN }
  | _ => Except.error PGErr.ProcessGroupNotInitialized

/-- The teardown sequence at the end of `dist_init`
(`src/ddpwrapper/__parallelit.py` lines 69-71): an unconditional
`dist.barrier(device_ids=[pid])` followed by
`dist.destroy_process_group()`.  There is no already-torn-down guard. -/
def teardown (g : PG) : Except PGErr PG :=
  match dist_barrier g with
  | Except.error e => Except.error e
  | Except.ok g1 => destroy_process_group g1

/-- C7 counterexample: from a joined group the first teardown succeeds
(performing one barrier and destroying the group), but the second teardown
is not an error-free no-op: lacking any guard it attempts another barrier
on the destroyed group and fails. -/
theorem teardown_twice_cex :
    teardown { state := PGState.JOINED, barrier_count := 0 } =
      Except.ok { state := PGState.TORN_DOWN, barrier_count := 1 } ∧
    teardown { state := PGState.TORN_DOWN, barrier_count := 1 } =
      Except.error PGErr.ProcessGroupNotInitialized :=
  ⟨rfl, rfl⟩

/-- C7 amended: calling the teardown sequence a second time after a
successful teardown is not a no-op — the sequence has no already-torn-down
guard, unconditionally attempts another barrier, and that barrier raises
because the default process group is no longer initialised (and the
barrier is not counted). -/
theorem teardown_after_teardown_errors (g g1 : PG) (h : teardown g = Except.ok g1) :
    teardown g1 = Except.error PGErr.ProcessGroupNotInitialized ∧
    g1.state = PGState.TORN_DOWN := by
  unfold teardown dist_barrier destroy_process_group at h
  cases hs : g.state with
  | UNINITIALIZED => rw [hs] at h; exact absurd h (by simp)
  | TORN_DOWN => rw [hs] at h; exact absurd h (by simp)
  | JOINED =>
    rw [hs] at h
    simp only [Except.ok.injEq] at h
    subst h
    exact ⟨rfl, rfl⟩

theorem teardown_after_teardown_errors_witness :
    teardown { state := PGState.JOINED, barrier_count := 5 } =
      Except.ok { state := PGState.TORN_DOWN, barrier_count := 6 } ∧
    teardown { state := PGState.TORN_DOWN, barrier_count := 6 } =
      Except.error PGErr.ProcessGroupNotInitialized :=
  ⟨rfl,
   (teardown_after_teardown_errors
      { state := PGState.JOINED, barrier_count := 5 }
      { state := PGState.TORN_DOWN, barrier_count := 6 } rfl).1⟩
